import Mathlib

/-!
Shallow embedding of the query-execution subsystem of `mcp_clickhouse/mcp_server.py`.

The Python code under scrutiny:

* `execute_query` (decorated with `functools.lru_cache(maxsize=128)`): obtains a
  client from `create_clickhouse_client()` (outside the `try` block), wraps the
  query text in a fixed sentinel comment, runs `client.query_df(sql,
  settings={"readonly": 1})`, and on an execution exception logs and returns the
  string `"error running query: {err}"`.
* `run_select_query`: submits `execute_query` to a thread pool and waits up to
  `SELECT_QUERY_TIMEOUT_SECS = 30` seconds; on timeout returns the fixed
  timeout message; a background execution that later completes still populates
  the lru_cache.
* `create_clickhouse_client`: calls `clickhouse_connect.get_client(...)`, then
  touches `client.server_version` as a liveness check, and re-raises every
  exception without retrying.
* `check_table_exists`: runs `execute_query(f"exists {table_name}")` and
  evaluates `bool(result["result"][0])` on the returned value.

The external world (the ClickHouse server and the network) is modelled by an
oracle `Env` assigning an outcome to each connection attempt and to each issued
query.  Python exceptions are modelled by `Except String`; the state threads the
memoization cache (most-recently-used first, mirroring `functools.lru_cache`)
together with instrumentation that the claims quantify over: the number of
connection attempts, the log of queries actually sent to the server (with their
settings), the error log, and the append-only record of completed executions.
-/

namespace McpClickhouse

/-- A scalar cell of a pandas DataFrame as produced by `client.query_df`. -/
inductive Cell where
  | int (n : Int)
  | str (s : String)
  deriving DecidableEq, Repr

/-- Python `bool(...)` truthiness of a cell. -/
def Cell.toBool : Cell → Bool
  | .int n => n != 0
  | .str s => s != ""

/-- A pandas DataFrame, stored column-major: `df["c"]` is column lookup. -/
structure DataFrame where
  cols : List (String × List Cell)
  deriving DecidableEq, Repr

/-- `df[name]`: raises `KeyError` when the column is absent. -/
def DataFrame.getCol (df : DataFrame) (name : String) : Except String (List Cell) :=
  match df.cols.find? (fun c => c.1 == name) with
  | some c => .ok c.2
  | none => .error ("KeyError: " ++ name)

/-- What `execute_query` returns in Python: a DataFrame on success, or the
string `"error running query: {err}"` on an execution error. -/
inductive QueryResult where
  | table (df : DataFrame)
  | errorStr (s : String)
  deriving DecidableEq, Repr

/-- The `settings` dictionary passed to `client.query_df`. -/
structure Settings where
  readonly : Nat
  deriving DecidableEq, Repr

/-- One attempt to build a client in `create_clickhouse_client`:
the outcome of `clickhouse_connect.get_client(...)` and the outcome of the
`client.server_version` liveness access (`.ok v` yields the version string). -/
structure ConnAttempt where
  getClientOutcome : Except String Unit
  serverVersionOutcome : Except String String
  deriving Repr

/-- The client handle returned by a successful `create_clickhouse_client`. -/
structure Client where
  server_version : String
  deriving DecidableEq, Repr

/-- `create_clickhouse_client`: build the client, test the connection by
reading `server_version`, return the handle; every exception is re-raised
(`raise` in the `except` clause), never retried.  The second component counts
how many `get_client` attempts the call performs (always exactly one). -/
def create_clickhouse_client (a : ConnAttempt) : Except String Client × Nat :=
  match a.getClientOutcome with
  | .error e => (.error e, 1)
  | .ok _ =>
    match a.serverVersionOutcome with
    | .error e => (.error e, 1)
    | .ok v => (.ok ⟨v⟩, 1)

/-- The oracle for the outside world: outcome of the `k`-th connection attempt
and of the `k`-th query sent to the server (with the sql text and settings
actually transmitted). -/
structure Env where
  attempt : Nat → ConnAttempt
  run : Nat → String → Settings → Except String DataFrame

/-- Interpreter state: the lru_cache contents (most-recently-used first),
plus the instrumentation the claims are about. -/
structure ExecState where
  cache : List (String × QueryResult)
  connCount : Nat
  sentQueries : List (String × Settings)
  log : List String
  completed : List (String × QueryResult)
  deriving Repr

/-- `functools.lru_cache(maxsize=128)`. -/
def CACHE_MAXSIZE : Nat := 128

/-- Cache lookup by exact query text (the lru_cache key is the argument). -/
def lruLookup (cache : List (String × QueryResult)) (q : String) : Option QueryResult :=
  (cache.find? (fun e => e.1 == q)).map (·.2)

/-- On a cache hit, `functools.lru_cache` moves the entry to most-recently-used. -/
def lruTouch (cache : List (String × QueryResult)) (q : String) :
    List (String × QueryResult) :=
  match cache.find? (fun e => e.1 == q) with
  | some e => e :: cache.filter (fun e' => e'.1 != q)
  | none => cache

/-- On a cache miss, `functools.lru_cache` inserts the new entry as
most-recently-used and evicts the least-recently-used entry when the size
would exceed `maxsize`. -/
def lruInsert (cache : List (String × QueryResult)) (q : String) (r : QueryResult) :
    List (String × QueryResult) :=
  let c := (q, r) :: cache
  if CACHE_MAXSIZE < c.length then c.dropLast else c

/-- The sentinel wrapping of the query text in `execute_query`:
`f"\n    -- MCP CLICKHOUSE QUERY \n    {query}\n    -- END MCP CLICKHOUSE QUERY\n    "`. -/
def wrapQuery (query : String) : String :=
  "\n    -- MCP CLICKHOUSE QUERY \n    " ++ query ++
    "\n    -- END MCP CLICKHOUSE QUERY\n    "

/-- `execute_query` under `@lru_cache(maxsize=128)`.

On a cache hit the memoized value is returned and nothing else happens.  On a
miss, `create_clickhouse_client()` runs *outside* the `try` block, so a
connection failure propagates as an exception and the lru_cache stores nothing
(Python's lru_cache does not cache raising calls).  Otherwise the wrapped sql
is sent with `settings={"readonly": 1}`; a success is returned as a DataFrame,
an execution exception is logged and folded into the string
`"error running query: {err}"`; either way the value is memoized. -/
def execute_query (env : Env) (s : ExecState) (query : String) :
    Except String QueryResult × ExecState :=
  match lruLookup s.cache query with
  | some r => (.ok r, { s with cache := lruTouch s.cache query })
  | none =>
    match (create_clickhouse_client (env.attempt s.connCount)).1 with
    | .error e => (.error e, { s with connCount := s.connCount + 1 })
    | .ok _client =>
      let sql := wrapQuery query
      let settings : Settings := ⟨1⟩
      let s₁ : ExecState :=
        { s with
          connCount := s.connCount + 1
          sentQueries := (sql, settings) :: s.sentQueries }
      match env.run s.sentQueries.length sql settings with
      | .ok df =>
        let r := QueryResult.table df
        (.ok r, { s₁ with
                    cache := lruInsert s.cache query r
                    completed := (query, r) :: s₁.completed })
      | .error err =>
        let r := QueryResult.errorStr ("error running query: " ++ err)
        (.ok r, { s₁ with
                    log := ("Error executing query: " ++ err) :: s₁.log
                    cache := lruInsert s.cache query r
                    completed := (query, r) :: s₁.completed })

/-- `SELECT_QUERY_TIMEOUT_SECS = 30`. -/
def SELECT_QUERY_TIMEOUT_SECS : Nat := 30

/-- The message returned on timeout:
`f"Queries taking longer than {SELECT_QUERY_TIMEOUT_SECS} seconds are currently not supported."`. -/
def timeoutMessage : String :=
  "Queries taking longer than " ++ toString SELECT_QUERY_TIMEOUT_SECS ++
    " seconds are currently not supported."

/-- `run_select_query`: submit `execute_query` to the thread pool and wait up
to the deadline.  `finishesInTime` says whether the worker finishes within the
deadline; if it does, `future.result` delivers the value or re-raises the
worker's exception.  On timeout the fixed message is returned; `bgCompletes`
says whether the submitted work nevertheless runs to completion in the
background (in which case it still updates the lru_cache — `future.cancel()`
is best-effort only). -/
def run_select_query (env : Env) (finishesInTime : Bool) (bgCompletes : Bool)
    (s : ExecState) (query : String) : Except String QueryResult × ExecState :=
  if finishesInTime then
    execute_query env s query
  else
    let s' := if bgCompletes then (execute_query env s query).2 else s
    (.ok (.errorStr timeoutMessage), s')

/-- `check_table_exists`: run `execute_query(f"exists {table_name}")` and
evaluate `bool(result["result"][0])`.  When `execute_query` returns its
error-result *string*, the subscript `result["result"]` is Python string
indexing with a `str` key and raises `TypeError`; when it returns a DataFrame,
`result["result"]` is column lookup (`KeyError` if absent) and `[0]` takes the
first element (`KeyError` when the column is empty). -/
def check_table_exists (env : Env) (s : ExecState) (table_name : String) :
    Except String Bool × ExecState :=
  match execute_query env s ("exists " ++ table_name) with
  | (.error e, s') => (.error e, s')
  | (.ok (.errorStr _), s') => (.error "TypeError: string indices must be integers", s')
  | (.ok (.table df), s') =>
    match df.getCol "result" with
    | .error e => (.error e, s')
    | .ok [] => (.error "KeyError: 0", s')
    | .ok (c :: _) => (.ok c.toBool, s')

/-! ### Concrete environments and states used by witnesses and counterexamples -/

/-- A one-cell result table, as returned by `exists ...` probes. -/
def df1 : DataFrame := ⟨[("result", [Cell.int 1])]⟩

/-- A healthy server: every connection attempt succeeds and every query
returns `df1`. -/
def envOk : Env :=
  { attempt := fun _ => ⟨.ok (), .ok "24.1.0"⟩
    run := fun _ _ _ => .ok df1 }

/-- A reachable server on which every query fails with an execution error. -/
def envExecErr : Env :=
  { attempt := fun _ => ⟨.ok (), .ok "24.1.0"⟩
    run := fun _ _ _ => .error "Code: 60. DB::Exception: Table missing" }

/-- An unreachable server: `get_client` raises on every attempt. -/
def envConnFail : Env :=
  { attempt := fun _ => ⟨.error "connection refused", .error "connection refused"⟩
    run := fun _ _ _ => .ok df1 }

/-- The initial state: empty cache, no connections, nothing sent or logged. -/
def s0 : ExecState := ⟨[], 0, [], [], []⟩

/-- No cache entry holds the timeout message: the timeout string is produced
by `run_select_query` after the future is abandoned and is never memoized. -/
def CacheNoTimeout (s : ExecState) : Prop :=
  ∀ e ∈ s.cache, e.2 ≠ QueryResult.errorStr timeoutMessage

/-- The cache invariant: at most `CACHE_MAXSIZE` entries, and every entry
records an execution (success or error-result) that completed at least once. -/
def CacheInv (s : ExecState) : Prop :=
  s.cache.length ≤ CACHE_MAXSIZE ∧ ∀ e ∈ s.cache, e ∈ s.completed

theorem execute_query_hit (env : Env) (s : ExecState) (q : String) (r : QueryResult)
    (h : lruLookup s.cache q = some r) :
    execute_query env s q = (.ok r, { s with cache := lruTouch s.cache q }) := by
  simp only [execute_query, h]

theorem execute_query_connFail (env : Env) (s : ExecState) (q : String) (e : String)
    (hm : lruLookup s.cache q = none)
    (hc : (create_clickhouse_client (env.attempt s.connCount)).1 = .error e) :
    execute_query env s q = (.error e, { s with connCount := s.connCount + 1 }) := by
  simp only [execute_query, hm, hc]

theorem execute_query_runOk (env : Env) (s : ExecState) (q : String) (c : Client)
    (df : DataFrame)
    (hm : lruLookup s.cache q = none)
    (hc : (create_clickhouse_client (env.attempt s.connCount)).1 = .ok c)
    (hr : env.run s.sentQueries.length (wrapQuery q) ⟨1⟩ = .ok df) :
    execute_query env s q =
      (.ok (.table df),
       { s with
          connCount := s.connCount + 1
          sentQueries := (wrapQuery q, ⟨1⟩) :: s.sentQueries
          cache := lruInsert s.cache q (.table df)
          completed := (q, .table df) :: s.completed }) := by
  simp only [execute_query, hm, hc, hr]

theorem execute_query_runErr (env : Env) (s : ExecState) (q : String) (c : Client)
    (err : String)
    (hm : lruLookup s.cache q = none)
    (hc : (create_clickhouse_client (env.attempt s.connCount)).1 = .ok c)
    (hr : env.run s.sentQueries.length (wrapQuery q) ⟨1⟩ = .error err) :
    execute_query env s q =
      (.ok (.errorStr ("error running query: " ++ err)),
       { s with
          connCount := s.connCount + 1
          sentQueries := (wrapQuery q, ⟨1⟩) :: s.sentQueries
          log := ("Error executing query: " ++ err) :: s.log
          cache := lruInsert s.cache q (.errorStr ("error running query: " ++ err))
          completed := (q, .errorStr ("error running query: " ++ err)) :: s.completed }) := by
  simp only [execute_query, hm, hc, hr]

theorem lruLookup_eq_none_iff (c : List (String × QueryResult)) (q : String) :
    lruLookup c q = none ↔ ∀ e ∈ c, e.1 ≠ q := by
  simp [lruLookup, List.find?_eq_none]

theorem mem_of_mem_lruTouch {c : List (String × QueryResult)} {q : String}
    {e : String × QueryResult} (h : e ∈ lruTouch c q) : e ∈ c := by
  unfold lruTouch at h
  split at h
  next a ha =>
    rcases List.mem_cons.mp h with rfl | h'
    · exact List.mem_of_find?_eq_some ha
    · exact List.mem_of_mem_filter h'
  next => exact h

theorem mem_of_mem_lruInsert {c : List (String × QueryResult)} {q : String}
    {r : QueryResult} {e : String × QueryResult} (h : e ∈ lruInsert c q r) :
    e = (q, r) ∨ e ∈ c := by
  simp only [lruInsert] at h
  split at h
  · have h2 : e ∈ (q, r) :: c := (List.dropLast_sublist ((q, r) :: c)).subset h
    exact List.mem_cons.mp h2
  · exact List.mem_cons.mp h

theorem lruInsert_exists_tail (c : List (String × QueryResult)) (q : String)
    (r : QueryResult) :
    ∃ t, lruInsert c q r = (q, r) :: t ∧ ∀ e ∈ t, e ∈ c := by
  simp only [lruInsert]
  split
  next hlen =>
    refine ⟨c.dropLast, ?_, fun e he => (List.dropLast_sublist c).subset he⟩
    cases c with
    | nil => simp [CACHE_MAXSIZE] at hlen
    | cons a t => rfl
  next => exact ⟨c, rfl, fun e he => he⟩

theorem lru_head_stable (t : List (String × QueryResult)) (q : String) (r : QueryResult)
    (ht : ∀ e ∈ t, e.1 ≠ q) :
    lruLookup ((q, r) :: t) q = some r ∧ lruTouch ((q, r) :: t) q = (q, r) :: t := by
  have hfind : ((q, r) :: t).find? (fun e => e.1 == q) = some (q, r) := by
    simp [List.find?]
  constructor
  · simp [lruLookup, hfind]
  · unfold lruTouch
    rw [hfind]
    have hft : t.filter (fun e' => e'.1 != q) = t :=
      List.filter_eq_self.mpr (fun e he => bne_iff_ne.mpr (ht e he))
    rw [List.filter_cons]
    simp [hft]

theorem lruTouch_of_lookup_some (c : List (String × QueryResult)) (q : String)
    (r : QueryResult) (h : lruLookup c q = some r) :
    ∃ t, lruTouch c q = (q, r) :: t ∧ ∀ e ∈ t, e.1 ≠ q := by
  unfold lruLookup at h
  cases hf : c.find? (fun e => e.1 == q) with
  | none => rw [hf] at h; simp at h
  | some a =>
    rw [hf] at h
    simp only [Option.map_some'] at h
    have h2 : a.2 = r := Option.some_inj.mp h
    have ha : (a.1 == q) = true := by simpa using List.find?_some hf
    have haq : a.1 = q := by simpa using ha
    have haeq : a = (q, r) := Prod.ext_iff.mpr ⟨haq, h2⟩
    refine ⟨c.filter (fun e' => e'.1 != q), ?_, ?_⟩
    · unfold lruTouch
      rw [hf, haeq]
    · intro e he
      exact bne_iff_ne.mp ((List.mem_filter.mp he).2)

theorem execute_stable (env : Env) (s : ExecState) (q : String) (r : QueryResult)
    (s₁ : ExecState) (h : execute_query env s q = (.ok r, s₁)) :
    execute_query env s₁ q = (.ok r, s₁) := by
  have key : ∃ t, s₁.cache = (q, r) :: t ∧ ∀ e ∈ t, e.1 ≠ q := by
    cases hl : lruLookup s.cache q with
    | some r₀ =>
      rw [execute_query_hit env s q r₀ hl] at h
      injection h with h1 h2
      injection h1 with h1
      rw [h1] at hl
      obtain ⟨t, ht1, ht2⟩ := lruTouch_of_lookup_some s.cache q r hl
      exact ⟨t, by rw [← h2]; exact ht1, ht2⟩
    | none =>
      have hall := (lruLookup_eq_none_iff s.cache q).mp hl
      cases hc : (create_clickhouse_client (env.attempt s.connCount)).1 with
      | error e =>
        rw [execute_query_connFail env s q e hl hc] at h
        injection h with h1 h2
        exact absurd h1 (by simp)
      | ok cl =>
        cases hr : env.run s.sentQueries.length (wrapQuery q) ⟨1⟩ with
        | ok df =>
          rw [execute_query_runOk env s q cl df hl hc hr] at h
          injection h with h1 h2
          injection h1 with h1
          subst h1
          obtain ⟨t, ht1, ht2⟩ := lruInsert_exists_tail s.cache q (.table df)
          exact ⟨t, by rw [← h2]; exact ht1, fun e he => hall e (ht2 e he)⟩
        | error err =>
          rw [execute_query_runErr env s q cl err hl hc hr] at h
          injection h with h1 h2
          injection h1 with h1
          subst h1
          obtain ⟨t, ht1, ht2⟩ :=
            lruInsert_exists_tail s.cache q (.errorStr ("error running query: " ++ err))
          exact ⟨t, by rw [← h2]; exact ht1, fun e he => hall e (ht2 e he)⟩
  obtain ⟨t, hct, ht⟩ := key
  obtain ⟨hlook, htouch⟩ := lru_head_stable t q r ht
  have hl₁ : lruLookup s₁.cache q = some r := by rw [hct]; exact hlook
  rw [execute_query_hit env s₁ q r hl₁]
  have : lruTouch s₁.cache q = s₁.cache := by rw [hct]; rw [htouch]
  rw [this]

/-! ### Claim theorems -/

/-- **C1** Memoization idempotence: when a call to `execute_query` completes
(returns a `QueryResult` rather than raising) with final state `s₁`, a second
call with the same query text against `s₁` returns the identical `QueryResult`
and leaves the state unchanged — in particular no connection is opened
(`connCount` unchanged) and no query is sent (`sentQueries` unchanged); this
holds equally when the memoized value is an error-result. -/
theorem C1_memoization_idempotent (env : Env) (s : ExecState) (q : String)
    (r : QueryResult) (s₁ : ExecState)
    (h : execute_query env s q = (.ok r, s₁)) :
    execute_query env s₁ q = (.ok r, s₁) ∧
    (execute_query env s₁ q).2.connCount = s₁.connCount ∧
    (execute_query env s₁ q).2.sentQueries = s₁.sentQueries := by
  have hst := execute_stable env s q r s₁ h
  exact ⟨hst, by rw [hst], by rw [hst]⟩

/-- **C1 witness**: on a server where the query fails with an execution error,
the first call memoizes the error-result and the second call returns the very
same error-result without touching the connection or the wire. -/
theorem C1_memoization_idempotent_witness :
    execute_query envExecErr (execute_query envExecErr s0 "SELECT 1").2 "SELECT 1" =
      (.ok (.errorStr "error running query: Code: 60. DB::Exception: Table missing"),
       (execute_query envExecErr s0 "SELECT 1").2) ∧
    (execute_query envExecErr (execute_query envExecErr s0 "SELECT 1").2 "SELECT 1").2.connCount =
      (execute_query envExecErr s0 "SELECT 1").2.connCount ∧
    (execute_query envExecErr (execute_query envExecErr s0 "SELECT 1").2 "SELECT 1").2.sentQueries =
      (execute_query envExecErr s0 "SELECT 1").2.sentQueries :=
  C1_memoization_idempotent envExecErr s0 "SELECT 1"
    (.errorStr "error running query: Code: 60. DB::Exception: Table missing")
    (execute_query envExecErr s0 "SELECT 1").2 rfl

/-- **C2 counterexample**: the claim "execute and runWithTimeout never raise"
is false on the code — `create_clickhouse_client()` is called outside the
`try` block of `execute_query`, so on an unreachable server `execute_query`
raises the connection exception, and `future.result` re-raises it out of
`run_select_query`. -/
theorem C2_counterexample :
    (execute_query envConnFail s0 "SELECT 1").1 = .error "connection refused" ∧
    (run_select_query envConnFail true true s0 "SELECT 1").1 = .error "connection refused" :=
  ⟨rfl, rfl⟩

/-- **C2 amended**: `execute_query` and `run_select_query` raise only when the
connection attempt itself fails; whenever the query text is cached or the
connection attempt succeeds (and on every timeout), all failure is folded into
the error-result variant of `QueryResult` and no exception crosses the
boundary. -/
theorem C2_no_raise_unless_connect_fails (env : Env) (s : ExecState) (q : String)
    (h : (lruLookup s.cache q).isSome = true ∨
         (create_clickhouse_client (env.attempt s.connCount)).1.isOk = true) :
    (∃ r, (execute_query env s q).1 = .ok r) ∧
    (∀ ft bg : Bool, ∃ r, (run_select_query env ft bg s q).1 = .ok r) := by
  have hx : ∃ r, (execute_query env s q).1 = .ok r := by
    cases hl : lruLookup s.cache q with
    | some r => exact ⟨r, by rw [execute_query_hit env s q r hl]⟩
    | none =>
      rcases h with h | h
      · rw [hl] at h
        simp at h
      · cases hc : (create_clickhouse_client (env.attempt s.connCount)).1 with
        | error e => rw [hc] at h; simp [Except.isOk, Except.toBool] at h
        | ok cl =>
          cases hr : env.run s.sentQueries.length (wrapQuery q) ⟨1⟩ with
          | ok df => exact ⟨_, by rw [execute_query_runOk env s q cl df hl hc hr]⟩
          | error err => exact ⟨_, by rw [execute_query_runErr env s q cl err hl hc hr]⟩
  refine ⟨hx, fun ft bg => ?_⟩
  cases ft with
  | false => exact ⟨.errorStr timeoutMessage, by simp [run_select_query]⟩
  | true => simpa [run_select_query] using hx

/-- **C2 witness**: on a healthy server the hypothesis holds and both calls
return a value. -/
theorem C2_no_raise_witness :
    ((lruLookup s0.cache "SELECT 1").isSome = true ∨
      (create_clickhouse_client (envOk.attempt s0.connCount)).1.isOk = true) ∧
    ((∃ r, (execute_query envOk s0 "SELECT 1").1 = .ok r) ∧
     (∀ ft bg : Bool, ∃ r, (run_select_query envOk ft bg s0 "SELECT 1").1 = .ok r)) :=
  ⟨Or.inr rfl, C2_no_raise_unless_connect_fails envOk s0 "SELECT 1" (Or.inr rfl)⟩

/-- **C3 counterexample**: the claim "`check_table_exists` never raises and an
error-result is coerced to `false`" is false on the code — when the probe query
fails, `execute_query` returns the error-result *string*, and
`result["result"]` subscripts a Python `str` with a `str` key, raising
`TypeError` instead of returning `false`. -/
theorem C3_counterexample :
    (check_table_exists envExecErr s0 "system.no_such_relation_xyz").1 =
      .error "TypeError: string indices must be integers" ∧
    (check_table_exists envExecErr s0 "system.no_such_relation_xyz").1 ≠ .ok false :=
  ⟨rfl, fun hco => Except.noConfusion hco⟩

/-- **C3 amended**: when the probe's execution yields an error-result,
`check_table_exists` raises a `TypeError` (the error-result is not coerced to
`false`); a boolean is returned only when execution succeeds with a table, in
which case it is the truthiness of the first cell of the `result` column. -/
theorem C3_error_result_raises (env : Env) (s : ExecState) (n : String) :
    (∀ m s', execute_query env s ("exists " ++ n) = (.ok (.errorStr m), s') →
      (check_table_exists env s n).1 = .error "TypeError: string indices must be integers") ∧
    (∀ df c rest s', execute_query env s ("exists " ++ n) = (.ok (.table df), s') →
      df.getCol "result" = .ok (c :: rest) →
      (check_table_exists env s n).1 = .ok c.toBool) := by
  constructor
  · intro m s' h
    simp only [check_table_exists, h]
  · intro df c rest s' h hcol
    simp only [check_table_exists, h, hcol]

/-- **C3 witness**: on a healthy server the probe succeeds and the truthiness
of the first `result` cell is returned. -/
theorem C3_error_result_raises_witness :
    (check_table_exists envOk s0 "system.tables").1 = .ok (Cell.int 1).toBool :=
  (C3_error_result_raises envOk s0 "system.tables").2 df1 (Cell.int 1) [] _ rfl rfl

theorem timeoutMessage_eq :
    timeoutMessage = "Queries taking longer than 30 seconds are currently not supported." := rfl

theorem err_ne_timeoutMessage (e : String) :
    ("error running query: " ++ e : String) ≠ timeoutMessage := by
  intro h
  have h2 : ("error running query: " ++ e).data = timeoutMessage.data :=
    congrArg String.data h
  rw [String.data_append] at h2
  have hl : "error running query: ".data = 'e' :: "rror running query: ".data := rfl
  have hr : timeoutMessage.data =
      'Q' :: "ueries taking longer than 30 seconds are currently not supported.".data := rfl
  rw [hl, hr, List.cons_append] at h2
  exact absurd (List.cons.inj h2).1 (by decide)

theorem execute_preserves_cacheNoTimeout (env : Env) (s : ExecState) (q : String)
    (hs : CacheNoTimeout s) : CacheNoTimeout (execute_query env s q).2 := by
  unfold CacheNoTimeout
  cases hl : lruLookup s.cache q with
  | some r =>
    rw [execute_query_hit env s q r hl]
    intro e he
    exact hs e (mem_of_mem_lruTouch he)
  | none =>
    cases hc : (create_clickhouse_client (env.attempt s.connCount)).1 with
    | error er =>
      rw [execute_query_connFail env s q er hl hc]
      intro e he
      exact hs e he
    | ok cl =>
      cases hr : env.run s.sentQueries.length (wrapQuery q) ⟨1⟩ with
      | ok df =>
        rw [execute_query_runOk env s q cl df hl hc hr]
        intro e he
        rcases mem_of_mem_lruInsert he with rfl | he'
        · exact fun hbad => QueryResult.noConfusion hbad
        · exact hs e he'
      | error err =>
        rw [execute_query_runErr env s q cl err hl hc hr]
        intro e he
        rcases mem_of_mem_lruInsert he with rfl | he'
        · intro hbad
          injection hbad with hbad
          exact err_ne_timeoutMessage err hbad
        · exact hs e he'

/-- **C4** Timeout behaviour: when the worker does not finish within the
deadline, the caller receives exactly the string
`"Queries taking longer than {N} seconds are currently not supported."` with
`N = SELECT_QUERY_TIMEOUT_SECS = 30`; the resulting state is the underlying
execution's state when the background work completes and the untouched state
otherwise, and the timeout string is never stored in the cache. -/
theorem C4_timeout_message_never_cached (env : Env) (bg : Bool) (s : ExecState)
    (q : String) (hs : CacheNoTimeout s) :
    (run_select_query env false bg s q).1 = .ok (.errorStr timeoutMessage) ∧
    timeoutMessage =
      "Queries taking longer than 30 seconds are currently not supported." ∧
    (run_select_query env false bg s q).2 =
      (if bg then (execute_query env s q).2 else s) ∧
    CacheNoTimeout (run_select_query env false bg s q).2 := by
  have hstate : (run_select_query env false bg s q).2 =
      if bg then (execute_query env s q).2 else s := by
    cases bg <;> simp [run_select_query]
  refine ⟨by simp [run_select_query], timeoutMessage_eq, hstate, ?_⟩
  rw [hstate]
  cases bg with
  | false => simpa using hs
  | true => simpa using execute_preserves_cacheNoTimeout env s q hs

/-- **C4 witness**: a concrete timed-out call on a healthy server whose
background execution completes and populates the cache. -/
theorem C4_timeout_witness :
    (run_select_query envOk false true s0 "SELECT 1").1 = .ok (.errorStr timeoutMessage) ∧
    timeoutMessage =
      "Queries taking longer than 30 seconds are currently not supported." ∧
    (run_select_query envOk false true s0 "SELECT 1").2 =
      (if true then (execute_query envOk s0 "SELECT 1").2 else s0) ∧
    CacheNoTimeout (run_select_query envOk false true s0 "SELECT 1").2 :=
  C4_timeout_message_never_cached envOk true s0 "SELECT 1"
    (fun e he => absurd he (List.not_mem_nil e))

/-- **C5** Execution-error result shape and caching: on a cache miss with a
working connection, when the server fails the query with cause `err`,
`execute_query` returns exactly the error-result string
`"error running query: {err}"`, logs it, and memoizes it; an immediately
repeated call returns the same error-result with no new query sent — a single
underlying execution attempt. -/
theorem C5_execution_error_cached (env : Env) (s : ExecState) (q err : String)
    (cl : Client)
    (hm : lruLookup s.cache q = none)
    (hc : (create_clickhouse_client (env.attempt s.connCount)).1 = .ok cl)
    (hr : env.run s.sentQueries.length (wrapQuery q) ⟨1⟩ = .error err) :
    ∃ s₁,
      execute_query env s q = (.ok (.errorStr ("error running query: " ++ err)), s₁) ∧
      s₁.log = ("Error executing query: " ++ err) :: s.log ∧
      lruLookup s₁.cache q = some (.errorStr ("error running query: " ++ err)) ∧
      s₁.sentQueries = (wrapQuery q, ⟨1⟩) :: s.sentQueries ∧
      execute_query env s₁ q = (.ok (.errorStr ("error running query: " ++ err)), s₁) := by
  have hfirst := execute_query_runErr env s q cl err hm hc hr
  refine ⟨(execute_query env s q).2, ?_, ?_, ?_, ?_, ?_⟩
  · rw [hfirst]
  · rw [hfirst]
  · rw [hfirst]
    show lruLookup (lruInsert s.cache q (.errorStr ("error running query: " ++ err))) q = _
    obtain ⟨t, ht1, ht2⟩ :=
      lruInsert_exists_tail s.cache q (.errorStr ("error running query: " ++ err))
    rw [ht1]
    exact (lru_head_stable t q _
      (fun e he => (lruLookup_eq_none_iff s.cache q).mp hm e (ht2 e he))).1
  · rw [hfirst]
  · have h1 : execute_query env s q =
        (.ok (.errorStr ("error running query: " ++ err)), (execute_query env s q).2) := by
      rw [hfirst]
    exact execute_stable env s q _ _ h1

/-- **C5 witness**: a concrete failing query against a reachable server. -/
theorem C5_execution_error_cached_witness :
    ∃ s₁,
      execute_query envExecErr s0 "SELECT broken" =
        (.ok (.errorStr ("error running query: " ++ "Code: 60. DB::Exception: Table missing")), s₁) ∧
      s₁.log = ("Error executing query: " ++ "Code: 60. DB::Exception: Table missing") :: s0.log ∧
      lruLookup s₁.cache "SELECT broken" =
        some (.errorStr ("error running query: " ++ "Code: 60. DB::Exception: Table missing")) ∧
      s₁.sentQueries = (wrapQuery "SELECT broken", ⟨1⟩) :: s0.sentQueries ∧
      execute_query envExecErr s₁ "SELECT broken" =
        (.ok (.errorStr ("error running query: " ++ "Code: 60. DB::Exception: Table missing")), s₁) :=
  C5_execution_error_cached envExecErr s0 "SELECT broken"
    "Code: 60. DB::Exception: Table missing" ⟨"24.1.0"⟩ rfl rfl rfl

/-- **C6** Read-only enforcement: every query `execute_query` or
`run_select_query` ever sends to the server carries `settings={"readonly": 1}`
— any entry of the sent-query log after a call is either an older entry or has
the read-only flag set, for every sql text supplied. -/
theorem C6_readonly_enforced (env : Env) (s : ExecState) (q : String) (ft bg : Bool) :
    (∀ e ∈ (execute_query env s q).2.sentQueries,
      e ∈ s.sentQueries ∨ e.2.readonly = 1) ∧
    (∀ e ∈ (run_select_query env ft bg s q).2.sentQueries,
      e ∈ s.sentQueries ∨ e.2.readonly = 1) := by
  have hx : ∀ e ∈ (execute_query env s q).2.sentQueries,
      e ∈ s.sentQueries ∨ e.2.readonly = 1 := by
    intro e he
    cases hl : lruLookup s.cache q with
    | some r =>
      rw [execute_query_hit env s q r hl] at he
      exact Or.inl he
    | none =>
      cases hc : (create_clickhouse_client (env.attempt s.connCount)).1 with
      | error er =>
        rw [execute_query_connFail env s q er hl hc] at he
        exact Or.inl he
      | ok cl =>
        cases hr : env.run s.sentQueries.length (wrapQuery q) ⟨1⟩ with
        | ok df =>
          rw [execute_query_runOk env s q cl df hl hc hr] at he
          rcases List.mem_cons.mp he with rfl | he'
          · exact Or.inr rfl
          · exact Or.inl he'
        | error err =>
          rw [execute_query_runErr env s q cl err hl hc hr] at he
          rcases List.mem_cons.mp he with rfl | he'
          · exact Or.inr rfl
          · exact Or.inl he'
  refine ⟨hx, ?_⟩
  cases ft with
  | true =>
    intro e he
    exact hx e (by simpa [run_select_query] using he)
  | false =>
    cases bg with
    | true =>
      intro e he
      exact hx e (by simpa [run_select_query] using he)
    | false =>
      intro e he
      exact Or.inl (by simpa [run_select_query] using he)

/-- **C6 witness**: on a healthy server the one query sent carries the
read-only flag. -/
theorem C6_readonly_enforced_witness :
    ((wrapQuery "INSERT INTO t VALUES (1)", (⟨1⟩ : Settings)) ∈ s0.sentQueries ∨
      ((wrapQuery "INSERT INTO t VALUES (1)", (⟨1⟩ : Settings)).2.readonly = 1)) :=
  (C6_readonly_enforced envOk s0 "INSERT INTO t VALUES (1)" true true).1
    (wrapQuery "INSERT INTO t VALUES (1)", ⟨1⟩) (by
      show (wrapQuery "INSERT INTO t VALUES (1)", (⟨1⟩ : Settings)) ∈
        (execute_query envOk s0 "INSERT INTO t VALUES (1)").2.sentQueries
      exact List.mem_singleton.mpr rfl)

/-- **C7** Sentinel wrapping and cache identity: on a cache miss with a working
connection, the sql actually sent is the caller's text wrapped in the fixed
sentinel comment header and footer, while the new cache entry is keyed by the
exact unwrapped text; entries for any other query text are untouched, so
textually different sql keeps distinct cache entries. -/
theorem C7_sentinel_wrap_cache_key (env : Env) (s : ExecState) (q : String)
    (cl : Client)
    (hm : lruLookup s.cache q = none)
    (hc : (create_clickhouse_client (env.attempt s.connCount)).1 = .ok cl) :
    ∃ r s₁,
      execute_query env s q = (.ok r, s₁) ∧
      s₁.sentQueries =
        ("\n    -- MCP CLICKHOUSE QUERY \n    " ++ q ++
          "\n    -- END MCP CLICKHOUSE QUERY\n    ", ⟨1⟩) :: s.sentQueries ∧
      s₁.cache.head? = some (q, r) ∧
      (∀ q₂ v, (q₂, v) ∈ s₁.cache → q₂ ≠ q → (q₂, v) ∈ s.cache) := by
  cases hr : env.run s.sentQueries.length (wrapQuery q) ⟨1⟩ with
  | ok df =>
    have hfirst := execute_query_runOk env s q cl df hm hc hr
    obtain ⟨t, ht1, ht2⟩ := lruInsert_exists_tail s.cache q (.table df)
    refine ⟨.table df, _, hfirst, ?_, ?_, ?_⟩
    · rfl
    · show (lruInsert s.cache q (.table df)).head? = _
      rw [ht1]
      rfl
    · intro q₂ v hmem hne
      rcases mem_of_mem_lruInsert (show (q₂, v) ∈ lruInsert s.cache q (.table df) from hmem)
        with heq | hold
      · exact absurd (congrArg Prod.fst heq) hne
      · exact hold
  | error err =>
    have hfirst := execute_query_runErr env s q cl err hm hc hr
    obtain ⟨t, ht1, ht2⟩ :=
      lruInsert_exists_tail s.cache q (.errorStr ("error running query: " ++ err))
    refine ⟨.errorStr ("error running query: " ++ err), _, hfirst, ?_, ?_, ?_⟩
    · rfl
    · show (lruInsert s.cache q (.errorStr ("error running query: " ++ err))).head? = _
      rw [ht1]
      rfl
    · intro q₂ v hmem hne
      rcases mem_of_mem_lruInsert
        (show (q₂, v) ∈ lruInsert s.cache q (.errorStr ("error running query: " ++ err))
          from hmem) with heq | hold
      · exact absurd (congrArg Prod.fst heq) hne
      · exact hold

/-- **C7 witness**: a concrete call on a healthy server. -/
theorem C7_sentinel_wrap_cache_key_witness :
    ∃ r s₁,
      execute_query envOk s0 "SELECT 1" = (.ok r, s₁) ∧
      s₁.sentQueries =
        ("\n    -- MCP CLICKHOUSE QUERY \n    " ++ "SELECT 1" ++
          "\n    -- END MCP CLICKHOUSE QUERY\n    ", ⟨1⟩) :: s0.sentQueries ∧
      s₁.cache.head? = some ("SELECT 1", r) ∧
      (∀ q₂ v, (q₂, v) ∈ s₁.cache → q₂ ≠ "SELECT 1" → (q₂, v) ∈ s0.cache) :=
  C7_sentinel_wrap_cache_key envOk s0 "SELECT 1" ⟨"24.1.0"⟩ rfl rfl

/-- **C8** Connection Provider contract: a handle is returned only when both
`get_client` and the `server_version` liveness round-trip succeeded (and the
handle carries that version); any failure of either step is raised carrying the
underlying cause; the call makes exactly one `get_client` attempt — no retry. -/
theorem C8_connection_provider_contract (a : ConnAttempt) :
    (∀ c, (create_clickhouse_client a).1 = .ok c →
      a.getClientOutcome = .ok () ∧ a.serverVersionOutcome = .ok c.server_version) ∧
    (∀ e, a.getClientOutcome = .error e →
      (create_clickhouse_client a).1 = .error e) ∧
    (∀ e u, a.getClientOutcome = .ok u → a.serverVersionOutcome = .error e →
      (create_clickhouse_client a).1 = .error e) ∧
    (create_clickhouse_client a).2 = 1 := by
  obtain ⟨g, v⟩ := a
  refine ⟨?_, ?_, ?_, ?_⟩
  · intro c hok
    cases g with
    | error e => exact absurd hok (by simp [create_clickhouse_client])
    | ok u =>
      cases v with
      | error e => exact absurd hok (by simp [create_clickhouse_client])
      | ok ver =>
        simp only [create_clickhouse_client] at hok
        injection hok with hok
        exact ⟨rfl, by rw [← hok]⟩
  · intro e he
    cases g with
    | error e' =>
      injection he with he
      subst he
      rfl
    | ok u => exact absurd he (by simp)
  · intro e u hg hv
    cases g with
    | error e' => exact absurd hg (by simp)
    | ok u' =>
      cases v with
      | error e' =>
        injection hv with hv
        subst hv
        rfl
      | ok ver => exact absurd hv (by simp)
  · cases g with
    | error e => rfl
    | ok u => cases v <;> rfl

/-- **C8 witness**: a refused connection surfaces its cause. -/
theorem C8_connection_provider_witness :
    (create_clickhouse_client ⟨.error "connection refused", .error "connection refused"⟩).1 =
      .error "connection refused" :=
  (C8_connection_provider_contract
    ⟨.error "connection refused", .error "connection refused"⟩).2.1 "connection refused" rfl

theorem lruTouch_length_le (c : List (String × QueryResult)) (q : String)
    (h : c.length ≤ CACHE_MAXSIZE) : (lruTouch c q).length ≤ CACHE_MAXSIZE := by
  unfold lruTouch
  split
  next a ha =>
    simp only [List.length_cons]
    have hlt : (c.filter (fun e' => e'.1 != q)).length < c.length := by
      rw [List.length_filter_lt_length_iff_exists]
      refine ⟨a, List.mem_of_find?_eq_some ha, ?_⟩
      have hp : (a.1 == q) = true := by simpa using List.find?_some ha
      have hq : a.1 = q := by simpa using hp
      simp [hq]
    omega
  next => exact h

theorem lruInsert_length_le (c : List (String × QueryResult)) (q : String)
    (r : QueryResult) (h : c.length ≤ CACHE_MAXSIZE) :
    (lruInsert c q r).length ≤ CACHE_MAXSIZE := by
  simp only [lruInsert]
  split
  next hlen =>
    rw [List.length_dropLast, List.length_cons]
    omega
  next hlen =>
    rw [List.length_cons]
    simp only [List.length_cons] at hlen
    omega

theorem execute_preserves_cacheInv (env : Env) (s : ExecState) (q : String)
    (h : CacheInv s) : CacheInv (execute_query env s q).2 := by
  obtain ⟨hlen, hmem⟩ := h
  cases hl : lruLookup s.cache q with
  | some r =>
    rw [execute_query_hit env s q r hl]
    exact ⟨lruTouch_length_le s.cache q hlen,
      fun e he => hmem e (mem_of_mem_lruTouch he)⟩
  | none =>
    cases hc : (create_clickhouse_client (env.attempt s.connCount)).1 with
    | error er =>
      rw [execute_query_connFail env s q er hl hc]
      exact ⟨hlen, hmem⟩
    | ok cl =>
      cases hr : env.run s.sentQueries.length (wrapQuery q) ⟨1⟩ with
      | ok df =>
        rw [execute_query_runOk env s q cl df hl hc hr]
        refine ⟨lruInsert_length_le s.cache q _ hlen, fun e he => ?_⟩
        rcases mem_of_mem_lruInsert he with rfl | he'
        · exact List.mem_cons_self _ _
        · exact List.mem_cons_of_mem _ (hmem e he')
      | error err =>
        rw [execute_query_runErr env s q cl err hl hc hr]
        refine ⟨lruInsert_length_le s.cache q _ hlen, fun e he => ?_⟩
        rcases mem_of_mem_lruInsert he with rfl | he'
        · exact List.mem_cons_self _ _
        · exact List.mem_cons_of_mem _ (hmem e he')

/-- **C9** Cache bound invariant: under `execute_query` and `run_select_query`
the cache always keeps at most 128 entries and every entry records an
execution that completed at least once; moreover, when the cache is full, a
new insertion keeps the most-recently-used 128 entries and evicts exactly the
least-recently-used one. -/
theorem C9_cache_bound_invariant (env : Env) (s : ExecState) (q : String)
    (ft bg : Bool) (h : CacheInv s) :
    CacheInv (execute_query env s q).2 ∧
    CacheInv (run_select_query env ft bg s q).2 ∧
    (∀ r, s.cache.length = CACHE_MAXSIZE →
      lruInsert s.cache q r = (q, r) :: s.cache.dropLast) := by
  refine ⟨execute_preserves_cacheInv env s q h, ?_, ?_⟩
  · cases ft with
    | true =>
      have : (run_select_query env true bg s q).2 = (execute_query env s q).2 := by
        simp [run_select_query]
      rw [this]
      exact execute_preserves_cacheInv env s q h
    | false =>
      cases bg with
      | true =>
        have : (run_select_query env false true s q).2 = (execute_query env s q).2 := by
          simp [run_select_query]
        rw [this]
        exact execute_preserves_cacheInv env s q h
      | false =>
        have : (run_select_query env false false s q).2 = s := by
          simp [run_select_query]
        rw [this]
        exact h
  · intro r hfull
    simp only [lruInsert]
    rw [if_pos (by rw [List.length_cons, hfull]; omega)]
    cases hcc : s.cache with
    | nil => rw [hcc] at hfull; simp [CACHE_MAXSIZE] at hfull
    | cons a t => rfl

/-- **C9 witness**: the invariant holds after a call from the empty state. -/
theorem C9_cache_bound_invariant_witness :
    CacheInv (execute_query envOk s0 "SELECT 1").2 ∧
    CacheInv (run_select_query envOk true true s0 "SELECT 1").2 ∧
    (∀ r, s0.cache.length = CACHE_MAXSIZE →
      lruInsert s0.cache "SELECT 1" r = ("SELECT 1", r) :: s0.cache.dropLast) :=
  C9_cache_bound_invariant envOk s0 "SELECT 1" true true
    ⟨by simp [s0, CACHE_MAXSIZE], fun e he => absurd he (List.not_mem_nil e)⟩

theorem execute_miss_connCount (env : Env) (s : ExecState) (q : String)
    (hm : lruLookup s.cache q = none) :
    (execute_query env s q).2.connCount = s.connCount + 1 := by
  cases hc : (create_clickhouse_client (env.attempt s.connCount)).1 with
  | error e => rw [execute_query_connFail env s q e hm hc]
  | ok cl =>
    cases hr : env.run s.sentQueries.length (wrapQuery q) ⟨1⟩ with
    | ok df => rw [execute_query_runOk env s q cl df hm hc hr]
    | error err => rw [execute_query_runErr env s q cl err hm hc hr]

/-- **C10** Connection-failure atomicity: when the connection attempt itself
fails on a cache miss, `execute_query` raises and leaves the cache, the
sent-query log, the error log, and the completed-execution record unchanged —
no entry is created for the query text — and a subsequent call with the same
text performs a fresh connection attempt. -/
theorem C10_connection_failure_atomic (env : Env) (s : ExecState) (q e : String)
    (hm : lruLookup s.cache q = none)
    (hc : (create_clickhouse_client (env.attempt s.connCount)).1 = .error e) :
    execute_query env s q = (.error e, { s with connCount := s.connCount + 1 }) ∧
    (execute_query env s q).2.cache = s.cache ∧
    (execute_query env s q).2.sentQueries = s.sentQueries ∧
    (execute_query env s q).2.log = s.log ∧
    (execute_query env s q).2.completed = s.completed ∧
    (execute_query env (execute_query env s q).2 q).2.connCount = s.connCount + 2 := by
  have hfirst := execute_query_connFail env s q e hm hc
  refine ⟨hfirst, by rw [hfirst], by rw [hfirst], by rw [hfirst], by rw [hfirst], ?_⟩
  rw [hfirst]
  exact execute_miss_connCount env { s with connCount := s.connCount + 1 } q hm

/-- **C10 witness**: a concrete unreachable server. -/
theorem C10_connection_failure_atomic_witness :
    execute_query envConnFail s0 "SELECT 1" =
      (.error "connection refused", { s0 with connCount := s0.connCount + 1 }) ∧
    (execute_query envConnFail s0 "SELECT 1").2.cache = s0.cache ∧
    (execute_query envConnFail s0 "SELECT 1").2.sentQueries = s0.sentQueries ∧
    (execute_query envConnFail s0 "SELECT 1").2.log = s0.log ∧
    (execute_query envConnFail s0 "SELECT 1").2.completed = s0.completed ∧
    (execute_query envConnFail (execute_query envConnFail s0 "SELECT 1").2 "SELECT 1").2.connCount =
      s0.connCount + 2 :=
  C10_connection_failure_atomic envConnFail s0 "SELECT 1" "connection refused" rfl rfl

end McpClickhouse
